import Mathlib

/-!
Verification of the EV-station location planning core
(`final/backend/model_loader.py` and `final/backend/app.py`).

Numbers are modelled as rationals; a location record is an open mapping,
so every optional numeric attribute is an `Option ℚ` (with the defaults
the code applies via `dict.get`), and the boolean amenity flags are
`Bool` (the code reads them with default `False`).  Fallible steps
(a model invocation that raises) are modelled with `Option`.
-/

/-- The 15-entry feature vector built by `prepare_ev_features`,
in the fixed order of `self.ev_features`. -/
structure Features where
  traffic_density : ℚ
  population_density : ℚ
  income_level : ℚ
  commercial_score : ℚ
  residential_score : ℚ
  industrial_score : ℚ
  proximity_highway : ℚ
  proximity_mall : ℚ
  proximity_office : ℚ
  ev_adoption_rate : ℚ
  solar_potential : ℚ
  land_cost : ℚ
  electricity_cost : ℚ
  government_subsidy : ℚ
  competition_score : ℚ
deriving Repr, DecidableEq

/-- A raw location record: the open mapping supplied by the caller.
A `none` field models an absent key (the code supplies a default via
`location_data.get(key, default)`); the five amenity flags are read
with default `False`. -/
structure LocationData where
  location_name : Option String := none
  daily_vehicles : Option ℚ := none
  population_density : Option ℚ := none
  avg_income : Option ℚ := none
  commercial_score : Option ℚ := none
  residential_score : Option ℚ := none
  industrial_score : Option ℚ := none
  highway_distance : Option ℚ := none
  mall_distance : Option ℚ := none
  office_distance : Option ℚ := none
  ev_adoption : Option ℚ := none
  solar_potential : Option ℚ := none
  land_cost : Option ℚ := none
  electricity_rate : Option ℚ := none
  subsidy_available : Option ℚ := none
  competition : Option ℚ := none
  fast_charging : Bool := false
  solar_powered : Bool := false
  amenities : Bool := false
  high_competition : Bool := false
  high_land_cost : Bool := false
deriving Repr, DecidableEq

/-- `prepare_ev_features` (model_loader.py lines 112-139): builds the
feature vector, applying the documented defaults and scale factors. -/
def prepare_ev_features (loc : LocationData) : Features :=
  { traffic_density := loc.daily_vehicles.getD 0 / 1000
    population_density := loc.population_density.getD 0
    income_level := loc.avg_income.getD 0 / 1000
    commercial_score := loc.commercial_score.getD 0
    residential_score := loc.residential_score.getD 0
    industrial_score := loc.industrial_score.getD 0
    proximity_highway := loc.highway_distance.getD 10
    proximity_mall := loc.mall_distance.getD 5
    proximity_office := loc.office_distance.getD 3
    ev_adoption_rate := loc.ev_adoption.getD 0
    solar_potential := loc.solar_potential.getD 0
    land_cost := loc.land_cost.getD 0 / 100000
    electricity_cost := loc.electricity_rate.getD 0
    government_subsidy := loc.subsidy_available.getD 0
    competition_score := loc.competition.getD 0 }

/-- `calculate_fallback_roi` (model_loader.py lines 172-188): sequential
threshold bonuses on a base of 12, capped at 35. -/
def calculate_fallback_roi (f : Features) : ℚ :=
  let base0 : ℚ := 12
  let base1 := if f.traffic_density > 5 then base0 + 3 else base0
  let base2 := if f.income_level > 75 then base1 + 2 else base1
  let base3 := if f.ev_adoption_rate > 20 then base2 + 4 else base2
  let base4 := if f.competition_score < 3 then base3 + 2 else base3
  let base5 := if f.government_subsidy > 0 then base4 + 3 else base4
  min base5 35

/-- The fallback base ROI written as the spec words it: 12 plus the five
independent increments (before the cap at 35). -/
def spec_fallback_base (f : Features) : ℚ :=
  12 + (if f.traffic_density > 5 then 3 else 0)
     + (if f.income_level > 75 then 2 else 0)
     + (if f.ev_adoption_rate > 20 then 4 else 0)
     + (if f.competition_score < 3 then 2 else 0)
     + (if f.government_subsidy > 0 then 3 else 0)

/-- `adjust_roi` (model_loader.py lines 190-208): flag-driven additive
adjustments on the raw record, floored at 5. -/
def adjust_roi (base_roi : ℚ) (loc : LocationData) : ℚ :=
  let a0 := base_roi
  let a1 := if loc.fast_charging then a0 + 5 else a0
  let a2 := if loc.solar_powered then a1 + 3 else a1
  let a3 := if loc.amenities then a2 + 2 else a2
  let a4 := if loc.high_competition then a3 - 4 else a3
  let a5 := if loc.high_land_cost then a4 - 3 else a4
  max a5 5

/-- The adjustment total as the spec words it: the five flag deltas. -/
def spec_adjustment (loc : LocationData) : ℚ :=
  (if loc.fast_charging then 5 else 0)
  + (if loc.solar_powered then 3 else 0)
  + (if loc.amenities then 2 else 0)
  - (if loc.high_competition then 4 else 0)
  - (if loc.high_land_cost then 3 else 0)

lemma calculate_fallback_roi_eq (f : Features) :
    calculate_fallback_roi f = min (spec_fallback_base f) 35 := by
  unfold calculate_fallback_roi spec_fallback_base
  split_ifs <;> norm_num

lemma spec_fallback_base_bounds (f : Features) :
    12 ≤ spec_fallback_base f ∧ spec_fallback_base f ≤ 26 := by
  unfold spec_fallback_base
  split_ifs <;> norm_num

lemma calculate_fallback_roi_ge_twelve (f : Features) :
    12 ≤ calculate_fallback_roi f := by
  rw [calculate_fallback_roi_eq]
  exact le_min (spec_fallback_base_bounds f).1 (by norm_num)

lemma adjust_roi_eq (b : ℚ) (loc : LocationData) :
    adjust_roi b loc = max (b + spec_adjustment loc) 5 := by
  unfold adjust_roi spec_adjustment
  split_ifs <;> ring_nf

lemma spec_adjustment_bounds (loc : LocationData) :
    -7 ≤ spec_adjustment loc ∧ spec_adjustment loc ≤ 10 := by
  unfold spec_adjustment
  split_ifs <;> norm_num

lemma adjust_roi_ge_five (b : ℚ) (loc : LocationData) :
    5 ≤ adjust_roi b loc := by
  rw [adjust_roi_eq]; exact le_max_right _ _

/-- C1: for every feature vector, the fallback base ROI equals 12 plus
the five documented threshold increments, capped at 35, and it always
lies in the interval from 12 to 35. -/
theorem C1_fallback_roi_formula (f : Features) :
    calculate_fallback_roi f = min (spec_fallback_base f) 35 ∧
    12 ≤ calculate_fallback_roi f ∧ calculate_fallback_roi f ≤ 35 := by
  refine ⟨calculate_fallback_roi_eq f, calculate_fallback_roi_ge_twelve f, ?_⟩
  rw [calculate_fallback_roi_eq]
  exact min_le_right _ _

/-- C3: for every base ROI and location record, the adjustment stage
adds the five flag-driven deltas read from the raw booleans and floors
the result at 5, so the adjusted ROI is never below 5. -/
theorem C3_adjustment_formula (b : ℚ) (loc : LocationData) :
    adjust_roi b loc = max (b + spec_adjustment loc) 5 ∧
    5 ≤ adjust_roi b loc :=
  ⟨adjust_roi_eq b loc, adjust_roi_ge_five b loc⟩

/-- A loaded ROI model entry: either a trained regression artifact
(whose invocation may raise, modelled by `Option`), or the string
sentinel set by `create_fallback_roi_model`. -/
inductive RoiModel where
  | trained (predict : Features → Option ℚ)
  | fallback

/-- A loaded clustering model entry.  `kmeansUnfitted` is the object
built by `create_fallback_cluster_model`: a KMeans instance that is
never fitted, so (per the scikit-learn contract) calling `predict` on
it raises NotFittedError — modelled as always returning `none`.
`loaded` is a pickled trained artifact whose invocation may raise. -/
inductive ClusterModel where
  | kmeansUnfitted
  | loaded (predict : Features → Option ℤ)

/-- Invoking a clustering model: the unfitted fallback always raises. -/
def ClusterModel.run : ClusterModel → Features → Option ℤ
  | ClusterModel.kmeansUnfitted, _ => none
  | ClusterModel.loaded p, f => p f

/-- `create_fallback_cluster_model` (model_loader.py lines 69-73):
stores `KMeans(n_clusters=4)` without ever fitting it. -/
def create_fallback_cluster_model : ClusterModel := ClusterModel.kmeansUnfitted

/-- The `self.models` dictionary after startup: each key is present
(`some`) or absent (`none`, a later read raises KeyError). -/
structure Models where
  roi_predictor : Option RoiModel
  location_cluster : Option ClusterModel

/-- The startup environment `load_essential_models` runs in: whether
each artifact file exists, and what loading it yields when attempted
(`none` models a raised exception during loading). -/
structure LoadEnv where
  xgb_exists : Bool
  xgb_load : Option (Features → Option ℚ)
  cluster_exists : Bool
  cluster_load : Option (Features → Option ℤ)

/-- `load_essential_models` (model_loader.py lines 39-61).  For each
artifact: if the file exists, loading is attempted — success registers
the trained model, an exception lands in the except branch which
registers the fallback.  If the file does not exist, the body inside
the try does nothing and no exception occurs, so no entry is written
and no fallback is created. -/
def load_essential_models (env : LoadEnv) : Models :=
  { roi_predictor :=
      if env.xgb_exists then
        match env.xgb_load with
        | some m => some (RoiModel.trained m)
        | none => some RoiModel.fallback
      else none
    location_cluster :=
      if env.cluster_exists then
        match env.cluster_load with
        | some m => some (ClusterModel.loaded m)
        | none => some create_fallback_cluster_model
      else none }

/-- `calculate_payback_period` (model_loader.py lines 294-298):
`none` models the `float(inf)` branch for ROI at most 0. -/
def calculate_payback_period (annual_roi : ℚ) : Option ℚ :=
  if annual_roi ≤ 0 then none else some (100 / annual_roi)

/-- `calculate_break_even` (model_loader.py lines 300-303). -/
def calculate_break_even (annual_roi : ℚ) : Option ℚ :=
  (calculate_payback_period annual_roi).map (fun y => y * 12)

/-- Truncation toward zero, as the Python `int(...)` conversion. -/
def pyInt (q : ℚ) : ℤ := if 0 ≤ q then q.floor else q.ceil

/-- `estimate_revenue` (model_loader.py lines 305-314). -/
def estimate_revenue (loc : LocationData) : ℤ :=
  let base_revenue : ℚ := 50000
  let vehicles := loc.daily_vehicles.getD 1000
  let ev_rate := loc.ev_adoption.getD 5
  let estimated_ev_traffic := vehicles * (ev_rate / 100) * (1 / 10)
  pyInt (base_revenue + estimated_ev_traffic * 365 * 15)

/-- The ROI result dictionary returned by `predict_roi`.  The payback
and break-even fields are `Option` because `calculate_payback_period`
can return infinity (`none`). -/
structure RoiResult where
  annual_roi : ℚ
  payback_period : Option ℚ
  break_even_months : Option ℚ
  estimated_annual_revenue : ℤ
deriving Repr, DecidableEq

/-- The fixed conservative default `predict_roi` returns when anything
inside it raises (model_loader.py lines 163-170). -/
def default_roi_result : RoiResult :=
  { annual_roi := 15
    payback_period := some (67 / 10)
    break_even_months := some 80
    estimated_annual_revenue := 120000 }

/-- The ROI result built on the successful path of `predict_roi`. -/
def roi_result_of (base_roi : ℚ) (loc : LocationData) : RoiResult :=
  let adjusted := adjust_roi base_roi loc
  { annual_roi := adjusted
    payback_period := calculate_payback_period adjusted
    break_even_months := calculate_break_even adjusted
    estimated_annual_revenue := estimate_revenue loc }

/-- `predict_roi` (model_loader.py lines 141-170).  A missing
`roi_predictor` key raises KeyError inside the try, a trained model
may itself raise; both land in the except branch that returns the
fixed default.  The string sentinel routes to the fallback formula. -/
def predict_roi (models : Models) (f : Features) (loc : LocationData) : RoiResult :=
  match models.roi_predictor with
  | none => default_roi_result
  | some RoiModel.fallback => roi_result_of (calculate_fallback_roi f) loc
  | some (RoiModel.trained m) =>
      match m f with
      | none => default_roi_result
      | some base => roi_result_of base loc

/-- The cluster result dictionary returned by `predict_location_cluster`. -/
structure ClusterResult where
  cluster_id : ℤ
  cluster_name : String
  description : String
deriving Repr, DecidableEq

/-- The `cluster_types` dictionary lookup of `predict_location_cluster`
(model_loader.py lines 216-222), with its `.get` default. -/
def cluster_types (id : ℤ) : String :=
  let s0 : String := "Premium Urban - High traffic, high income"
  let s1 : String := "Commercial Hub - Shopping centers, offices"
  let s2 : String := "Residential Area - Steady local traffic"
  let s3 : String := "Highway Corridor - Travel and transit focus"
  let s4 : String := "Developing Area - Growth potential"
  let sd : String := "Unknown"
  if id = 0 then s0 else if id = 1 then s1 else if id = 2 then s2
  else if id = 3 then s3 else if id = 4 then s4 else sd

/-- `get_cluster_description` (model_loader.py lines 238-247). -/
def get_cluster_description (cluster_id : ℤ) : String :=
  let d0 : String := "Excellent location with high EV adoption potential and premium pricing capability"
  let d1 : String := "Strong commercial traffic with good revenue potential during business hours"
  let d2 : String := "Consistent residential usage with potential for loyalty programs"
  let d3 : String := "High-volume transient traffic, ideal for fast charging stations"
  let d4 : String := "Emerging area with growth potential, lower initial returns but high future upside"
  let dd : String := "Standard location with balanced potential"
  if cluster_id = 0 then d0 else if cluster_id = 1 then d1
  else if cluster_id = 2 then d2 else if cluster_id = 3 then d3
  else if cluster_id = 4 then d4 else dd

/-- The default cluster result returned by the except branch of
`predict_location_cluster` (model_loader.py lines 230-236). -/
def default_cluster_result : ClusterResult :=
  let nm : String := "Standard Commercial"
  let ds : String := "Balanced location with moderate potential"
  { cluster_id := 2, cluster_name := nm, description := ds }

/-- `predict_location_cluster` (model_loader.py lines 210-236): a
missing `location_cluster` key raises KeyError and invoking the model
may raise; both land in the except branch returning the default.  A
returned id is passed through unchanged, with table lookups for the
name and description. -/
def predict_location_cluster (models : Models) (f : Features) : ClusterResult :=
  match models.location_cluster with
  | none => default_cluster_result
  | some m =>
      match m.run f with
      | none => default_cluster_result
      | some id =>
          { cluster_id := id
            cluster_name := cluster_types id
            description := get_cluster_description id }

/-- The `cluster_scores` dictionary lookup of
`calculate_viability_score` (model_loader.py lines 289-290). -/
def cluster_scores (id : ℤ) : ℚ :=
  if id = 0 then 45 else if id = 1 then 40 else if id = 2 then 30
  else if id = 3 then 35 else if id = 4 then 25 else 20

/-- `calculate_viability_score` (model_loader.py lines 285-292). -/
def calculate_viability_score (roi : RoiResult) (cluster : ClusterResult) : ℚ :=
  let roi_score := min (roi.annual_roi * 2) 50
  let cluster_score := cluster_scores cluster.cluster_id
  min (roi_score + cluster_score) 100

/-- `get_investment_grade` (model_loader.py lines 316-323). -/
def get_investment_grade (roi : ℚ) : String :=
  let gA2 : String := "A+ (Excellent)"
  let gA : String := "A (Very Good)"
  let gB2 : String := "B+ (Good)"
  let gB : String := "B (Average)"
  let gC : String := "C (Fair)"
  let gD : String := "D (Poor)"
  if roi ≥ 25 then gA2 else if roi ≥ 20 then gA else if roi ≥ 15 then gB2
  else if roi ≥ 10 then gB else if roi ≥ 5 then gC else gD

/-- `get_risk_level` (model_loader.py lines 325-330). -/
def get_risk_level (roi : ℚ) : String :=
  let rL : String := "Low Risk"
  let rM : String := "Moderate Risk"
  let rH : String := "High Risk"
  let rV : String := "Very High Risk"
  if roi ≥ 20 then rL else if roi ≥ 12 then rM
  else if roi ≥ 8 then rH else rV

/-- `generate_station_recommendations` (model_loader.py lines 249-283). -/
def generate_station_recommendations (roi_result : RoiResult)
    (cluster : ClusterResult) (loc : LocationData) : List String :=
  let mPrem : String := "🚀 **Premium Investment** - Consider multiple charging bays"
  let mStrong : String := "✅ **Strong Investment** - Optimal for single station"
  let mMod : String := "🔄 **Moderate Investment** - Start with basic infrastructure"
  let mEval : String := "⏸️ **Evaluate Carefully** - Consider alternative locations"
  let c0a : String := "💎 **Install DC Fast Chargers** - Target premium customers"
  let c0b : String := "🏢 **Add Lounge Amenities** - Increase dwell time revenue"
  let c1a : String := "🛒 **Partner with Retailers** - Cross-promotion opportunities"
  let c1b : String := "⏰ **Focus on Business Hours** - Peak pricing strategy"
  let c3a : String := "⚡ **Ultra-Fast Charging** - Minimize stop time for travelers"
  let c3b : String := "🍔 **Add Food Services** - Capture additional revenue"
  let fSolar : String := "☀️ **Add Solar Canopy** - Reduce electricity costs and carbon footprint"
  let fEdu : String := "📊 **Community Education** - Work with local EV groups to drive adoption"
  let roi := roi_result.annual_roi
  let roiMsg := if roi > 25 then mPrem else if roi > 15 then mStrong
    else if roi > 8 then mMod else mEval
  let clusterMsgs :=
    if cluster.cluster_id = 0 then [c0a, c0b]
    else if cluster.cluster_id = 1 then [c1a, c1b]
    else if cluster.cluster_id = 3 then [c3a, c3b]
    else []
  let solarMsgs := if loc.solar_potential.getD 0 > 70 then [fSolar] else []
  let eduMsgs := if loc.ev_adoption.getD 0 < 10 then [fEdu] else []
  [roiMsg] ++ clusterMsgs ++ solarMsgs ++ eduMsgs

/-- The successful result dictionary of `predict_ev_station_viability`
(model_loader.py lines 98-104). -/
structure PredictionOutput where
  roi : RoiResult
  location_type : ClusterResult
  recommendations : List String
  viability_score : ℚ
  investment_grade : String
  risk_level : String
deriving Repr, DecidableEq

/-- The pipeline body of `predict_ev_station_viability` on a
well-formed record (model_loader.py lines 75-106). -/
def analyze_location (models : Models) (d : LocationData) : PredictionOutput :=
  let f := prepare_ev_features d
  let roi := predict_roi models f d
  let cluster := predict_location_cluster models f
  { roi := roi
    location_type := cluster
    recommendations := generate_station_recommendations roi cluster d
    viability_score := calculate_viability_score roi cluster
    investment_grade := get_investment_grade roi.annual_roi
    risk_level := get_risk_level roi.annual_roi }

/-- One entry of a batch request.  `valid` is a well-formed record;
`malformed` models a record whose processing raises inside the
pipeline (for example a non-numeric value where a number is expected),
which `predict_ev_station_viability` catches and turns into an error
dictionary carrying the exception text.  A malformed record may still
carry a location name read in the error branch. -/
inductive LocationInput where
  | valid (d : LocationData)
  | malformed (errMsg : String) (location_name : Option String)

/-- The return value of `predict_ev_station_viability`: the result
dictionary, or the error dictionary built by its except branch. -/
inductive PredictResult where
  | ok (out : PredictionOutput)
  | error (msg : String)
deriving DecidableEq

/-- `predict_ev_station_viability` (model_loader.py lines 75-110): the
pipeline wrapped in a try that converts any raised exception into an
error dictionary. -/
def predict_ev_station_viability (models : Models) : LocationInput → PredictResult
  | LocationInput.valid d => PredictResult.ok (analyze_location models d)
  | LocationInput.malformed e _ => PredictResult.error e

/-- The default location name used by `batch_analyze` for item `i`. -/
def default_location_name (i : ℕ) : String :=
  let p : String := "Location_"
  p ++ toString i

/-- The name attached to a batch entry:
`location.get(..., f...)` with the positional default. -/
def batch_location_name (loc : LocationInput) (i : ℕ) : String :=
  match loc with
  | LocationInput.valid d => d.location_name.getD (default_location_name i)
  | LocationInput.malformed _ n => n.getD (default_location_name i)

/-- One element of the `results` list of `batch_analyze`: the payload
(result or error dictionary) together with the `location_index` and
`location_name` keys the loop adds. -/
structure BatchEntry where
  payload : PredictResult
  location_index : ℕ
  location_name : String
deriving DecidableEq

/-- Whether a results entry contains an error key
(the membership test of the `successful_analysis` count). -/
def entryHasError (e : BatchEntry) : Bool :=
  match e.payload with
  | PredictResult.error _ => true
  | PredictResult.ok _ => false

/-- The entry appended for item `i` of the batch loop. -/
def mkBatchEntry (models : Models) (i : ℕ) (loc : LocationInput) : BatchEntry :=
  { payload := predict_ev_station_viability models loc
    location_index := i
    location_name := batch_location_name loc i }

/-- The `for i, location in enumerate(...)` loop of `batch_analyze`
(app.py lines 143-155): one entry is appended per input item. -/
def batch_results (models : Models) : ℕ → List LocationInput → List BatchEntry
  | _, [] => []
  | i, loc :: rest => mkBatchEntry models i loc :: batch_results models (i + 1) rest

/-- The response body of `batch_analyze` (app.py lines 157-163). -/
structure BatchOutput where
  total_locations : ℕ
  successful_analysis : ℕ
  results : List BatchEntry

/-- `batch_analyze` (app.py lines 131-163). -/
def batch_analyze (models : Models) (locations : List LocationInput) : BatchOutput :=
  let results := batch_results models 0 locations
  { total_locations := locations.length
    successful_analysis := (results.filter (fun r => !entryHasError r)).length
    results := results }

lemma batch_results_length (models : Models) (i : ℕ) (locations : List LocationInput) :
    (batch_results models i locations).length = locations.length := by
  induction locations generalizing i with
  | nil => rfl
  | cons loc rest ih => simp [batch_results, ih]

/-- Every value of `predict_roi` is either the fixed default (raised
exception: missing key or trained-model failure) or the successful
result built from some base ROI. -/
lemma predict_roi_shape (models : Models) (f : Features) (loc : LocationData) :
    predict_roi models f loc = default_roi_result ∨
    ∃ b, predict_roi models f loc = roi_result_of b loc := by
  unfold predict_roi
  cases models.roi_predictor with
  | none => left; rfl
  | some m =>
    cases m with
    | fallback => right; exact ⟨calculate_fallback_roi f, rfl⟩
    | trained p =>
      cases hp : p f with
      | none => left; simp [hp]
      | some b => right; exact ⟨b, by simp [hp]⟩

lemma predict_roi_annual_ge_five (models : Models) (f : Features) (loc : LocationData) :
    5 ≤ (predict_roi models f loc).annual_roi := by
  rcases predict_roi_shape models f loc with h | ⟨b, h⟩ <;> rw [h]
  · norm_num [default_roi_result]
  · show 5 ≤ adjust_roi b loc
    exact adjust_roi_ge_five b loc

lemma payback_of_ge_five (r : ℚ) (h : 5 ≤ r) :
    calculate_payback_period r = some (100 / r) ∧ 100 / r ≤ 20 := by
  have hpos : 0 < r := by linarith
  constructor
  · unfold calculate_payback_period
    rw [if_neg (not_le.mpr hpos)]
  · rw [div_le_iff₀ hpos]; linarith

/-- C10: every ROI result of the prediction pipeline has annual ROI at
least 5, its payback period is finite and at most 20 years, and the
infinite branch of `calculate_payback_period` is not taken at the
returned annual ROI. -/
theorem C10_payback_always_finite (models : Models) (f : Features) (loc : LocationData) :
    5 ≤ (predict_roi models f loc).annual_roi ∧
    (∃ p, (predict_roi models f loc).payback_period = some p ∧ p ≤ 20) ∧
    calculate_payback_period (predict_roi models f loc).annual_roi =
      some (100 / (predict_roi models f loc).annual_roi) := by
  rcases predict_roi_shape models f loc with h | ⟨b, h⟩ <;> rw [h]
  · refine ⟨by norm_num [default_roi_result], ⟨67 / 10, rfl, by norm_num⟩, ?_⟩
    show calculate_payback_period 15 = some (100 / 15)
    unfold calculate_payback_period
    norm_num
  · have h5 : 5 ≤ adjust_roi b loc := adjust_roi_ge_five b loc
    obtain ⟨hp, hb⟩ := payback_of_ge_five (adjust_roi b loc) h5
    exact ⟨h5, ⟨100 / adjust_roi b loc, hp, hb⟩, hp⟩

lemma cluster_scores_ge (id : ℤ) : 20 ≤ cluster_scores id := by
  unfold cluster_scores; split_ifs <;> norm_num

lemma viability_bounds (roi : RoiResult) (c : ClusterResult) (h : 0 ≤ roi.annual_roi) :
    0 ≤ calculate_viability_score roi c ∧ calculate_viability_score roi c ≤ 100 := by
  constructor
  · show 0 ≤ min (min (roi.annual_roi * 2) 50 + cluster_scores c.cluster_id) 100
    have h1 := cluster_scores_ge c.cluster_id
    have h2 : (0 : ℚ) ≤ min (roi.annual_roi * 2) 50 := le_min (by linarith) (by norm_num)
    exact le_min (by linarith) (by norm_num)
  · show min (min (roi.annual_roi * 2) 50 + cluster_scores c.cluster_id) 100 ≤ 100
    exact min_le_right _ _

/-- C4: the viability score is min(min(annual ROI times 2, 50) plus the
cluster lookup score, 100), and on every pipeline output it lies in
the interval from 0 to 100. -/
theorem C4_viability_score_formula :
    (∀ (roi : RoiResult) (c : ClusterResult),
        calculate_viability_score roi c =
          min (min (roi.annual_roi * 2) 50 + cluster_scores c.cluster_id) 100) ∧
    (∀ (models : Models) (d : LocationData),
        0 ≤ (analyze_location models d).viability_score ∧
        (analyze_location models d).viability_score ≤ 100) := by
  constructor
  · intro roi c; rfl
  · intro models d
    have h5 := predict_roi_annual_ge_five models (prepare_ev_features d) d
    have h0 : (0 : ℚ) ≤ (predict_roi models (prepare_ev_features d) d).annual_roi := by
      linarith
    exact viability_bounds (predict_roi models (prepare_ev_features d) d)
      (predict_location_cluster models (prepare_ev_features d)) h0

/-- C5: for every model registry and batch input, the results list has
one entry per input location, and the successful-analysis count equals
the number of result entries without an error key. -/
theorem C5_batch_invariants (models : Models) (locations : List LocationInput) :
    (batch_analyze models locations).results.length = locations.length ∧
    (batch_analyze models locations).successful_analysis =
      ((batch_analyze models locations).results.filter fun r => !entryHasError r).length :=
  ⟨batch_results_length models 0 locations, rfl⟩

/-- A startup environment in which neither artifact file exists. -/
def env_xgb_absent : LoadEnv :=
  { xgb_exists := false, xgb_load := none, cluster_exists := false, cluster_load := none }

/-- A location record with every key absent. -/
def empty_location : LocationData := {}

/-- C2 (failing input): when the ROI artifact file is absent, startup
registers no ROI entry at all — the exists-guard sits inside the try,
so no exception occurs and the except branch that would install the
fallback marker never runs.  A later `predict_roi` then raises
KeyError and returns the fixed default (annual ROI 15), whereas the
deterministic fallback formula on the same record yields 14.  Absence
and load failure therefore do not lead to the same fallback behaviour,
contradicting the claim. -/
theorem C2_absence_skips_fallback :
    (load_essential_models env_xgb_absent).roi_predictor = none ∧
    (predict_roi (load_essential_models env_xgb_absent)
        (prepare_ev_features empty_location) empty_location).annual_roi = 15 ∧
    adjust_roi (calculate_fallback_roi (prepare_ev_features empty_location))
        empty_location = 14 := by
  refine ⟨rfl, rfl, ?_⟩
  norm_num [adjust_roi, calculate_fallback_roi, prepare_ev_features, empty_location]

/-- The registry produced when both loads are attempted and fail:
the fallback marker for ROI and the unfitted KMeans for clustering. -/
def fallback_models : Models :=
  { roi_predictor := some RoiModel.fallback
    location_cluster := some create_fallback_cluster_model }

/-- C9: whenever the registered clustering model is the unfitted KMeans
object built by the fallback constructor, classification returns the
default result — id 2, the Standard Commercial name and the generic
description — for every feature vector. -/
theorem C9_unfitted_kmeans_default (models : Models) (f : Features)
    (h : models.location_cluster = some create_fallback_cluster_model) :
    (predict_location_cluster models f).cluster_id = 2 ∧
    (predict_location_cluster models f).cluster_name = "Standard Commercial" ∧
    (predict_location_cluster models f).description =
      "Balanced location with moderate potential" := by
  unfold predict_location_cluster
  rw [h]
  simp [create_fallback_cluster_model, ClusterModel.run, default_cluster_result]

/-- C9 witness: the fallback registry satisfies the hypothesis, and the
default result is returned on a concrete feature vector. -/
theorem C9_unfitted_kmeans_default_witness :
    fallback_models.location_cluster = some create_fallback_cluster_model ∧
    ((predict_location_cluster fallback_models
        (prepare_ev_features empty_location)).cluster_id = 2 ∧
     (predict_location_cluster fallback_models
        (prepare_ev_features empty_location)).cluster_name = "Standard Commercial" ∧
     (predict_location_cluster fallback_models
        (prepare_ev_features empty_location)).description =
       "Balanced location with moderate potential") :=
  ⟨rfl, C9_unfitted_kmeans_default fallback_models (prepare_ev_features empty_location) rfl⟩

/-- Every value of `predict_location_cluster` is either the default
result of the except branch or the table resolution of the id the
classifier returned. -/
lemma predict_location_cluster_shape (models : Models) (f : Features) :
    predict_location_cluster models f = default_cluster_result ∨
    ∃ id, predict_location_cluster models f =
      { cluster_id := id
        cluster_name := cluster_types id
        description := get_cluster_description id } := by
  unfold predict_location_cluster
  cases models.location_cluster with
  | none => left; rfl
  | some m =>
    cases hr : m.run f with
    | none => left; simp [hr]
    | some id => right; exact ⟨id, by simp [hr]⟩

/-- A loaded clustering artifact that returns id 7 on every input. -/
def cluster_model_seven : ClusterModel := ClusterModel.loaded (fun _ => some 7)

/-- A registry whose clustering entry is a loaded artifact returning
an id outside the known five-entry table. -/
def models_out_of_range : Models :=
  { roi_predictor := some RoiModel.fallback
    location_cluster := some cluster_model_seven }

/-- C7 counterexample: with a loaded clustering artifact that returns
id 7, the result carries cluster_id 7 — an id outside the set 0 to 4
and different from the default 2 — so the claim that the result id is
never out of range is false. -/
theorem C7_counterexample :
    (predict_location_cluster models_out_of_range
        (prepare_ev_features empty_location)).cluster_id = 7 ∧
    ¬((predict_location_cluster models_out_of_range
          (prepare_ev_features empty_location)).cluster_id = 0 ∨
      (predict_location_cluster models_out_of_range
          (prepare_ev_features empty_location)).cluster_id = 1 ∨
      (predict_location_cluster models_out_of_range
          (prepare_ev_features empty_location)).cluster_id = 2 ∨
      (predict_location_cluster models_out_of_range
          (prepare_ev_features empty_location)).cluster_id = 3 ∨
      (predict_location_cluster models_out_of_range
          (prepare_ev_features empty_location)).cluster_id = 4) := by
  decide

/-- C7 amended: the result id is the classifier output passed through
unchanged (so it can lie outside 0 to 4), and whenever it does, the
accompanying name and description are the generic labels. -/
theorem C7_amended_generic_labels (models : Models) (f : Features)
    (h : ¬((predict_location_cluster models f).cluster_id = 0 ∨
           (predict_location_cluster models f).cluster_id = 1 ∨
           (predict_location_cluster models f).cluster_id = 2 ∨
           (predict_location_cluster models f).cluster_id = 3 ∨
           (predict_location_cluster models f).cluster_id = 4)) :
    (predict_location_cluster models f).cluster_name = "Unknown" ∧
    (predict_location_cluster models f).description =
      "Standard location with balanced potential" := by
  push_neg at h
  obtain ⟨h0, h1, h2, h3, h4⟩ := h
  rcases predict_location_cluster_shape models f with hs | ⟨id, hs⟩
  · rw [hs] at h2
    exact absurd rfl h2
  · rw [hs] at h0 h1 h2 h3 h4 ⊢
    have g0 : id ≠ 0 := h0
    have g1 : id ≠ 1 := h1
    have g2 : id ≠ 2 := h2
    have g3 : id ≠ 3 := h3
    have g4 : id ≠ 4 := h4
    constructor
    · show cluster_types id = "Unknown"
      simp [cluster_types, g0, g1, g2, g3, g4]
    · show get_cluster_description id = "Standard location with balanced potential"
      simp [get_cluster_description, g0, g1, g2, g3, g4]

/-- C7 amended witness: the id-7 artifact is out of range and gets the
generic labels. -/
theorem C7_amended_generic_labels_witness :
    (¬((predict_location_cluster models_out_of_range
          (prepare_ev_features empty_location)).cluster_id = 0 ∨
       (predict_location_cluster models_out_of_range
          (prepare_ev_features empty_location)).cluster_id = 1 ∨
       (predict_location_cluster models_out_of_range
          (prepare_ev_features empty_location)).cluster_id = 2 ∨
       (predict_location_cluster models_out_of_range
          (prepare_ev_features empty_location)).cluster_id = 3 ∨
       (predict_location_cluster models_out_of_range
          (prepare_ev_features empty_location)).cluster_id = 4)) ∧
    ((predict_location_cluster models_out_of_range
        (prepare_ev_features empty_location)).cluster_name = "Unknown" ∧
     (predict_location_cluster models_out_of_range
        (prepare_ev_features empty_location)).description =
       "Standard location with balanced potential") :=
  ⟨by decide,
   C7_amended_generic_labels models_out_of_range
     (prepare_ev_features empty_location) (by decide)⟩

lemma spec_fallback_base_update (f : Features) (x y : ℚ)
    (hx : x ≤ 20) (hy : 20 < y) :
    spec_fallback_base { f with ev_adoption_rate := y } =
      spec_fallback_base { f with ev_adoption_rate := x } + 4 := by
  show 12 + (if f.traffic_density > 5 then (3 : ℚ) else 0)
      + (if f.income_level > 75 then 2 else 0)
      + (if y > 20 then 4 else 0)
      + (if f.competition_score < 3 then 2 else 0)
      + (if f.government_subsidy > 0 then 3 else 0)
    = 12 + (if f.traffic_density > 5 then 3 else 0)
      + (if f.income_level > 75 then 2 else 0)
      + (if x > 20 then 4 else 0)
      + (if f.competition_score < 3 then 2 else 0)
      + (if f.government_subsidy > 0 then 3 else 0) + 4
  rw [if_pos hy, if_neg (not_lt.mpr hx)]
  ring

lemma spec_adjustment_fast (loc : LocationData) :
    spec_adjustment { loc with fast_charging := true } =
      spec_adjustment { loc with fast_charging := false } + 5 := by
  show (if true = true then (5 : ℚ) else 0)
      + (if loc.solar_powered = true then 3 else 0)
      + (if loc.amenities = true then 2 else 0)
      - (if loc.high_competition = true then 4 else 0)
      - (if loc.high_land_cost = true then 3 else 0)
    = (if false = true then (5 : ℚ) else 0)
      + (if loc.solar_powered = true then 3 else 0)
      + (if loc.amenities = true then 2 else 0)
      - (if loc.high_competition = true then 4 else 0)
      - (if loc.high_land_cost = true then 3 else 0) + 5
  rw [if_pos rfl, if_neg Bool.false_ne_true]
  ring

lemma adjust_roi_fast_delta (b : ℚ) (hb : 12 ≤ b) (loc : LocationData) :
    adjust_roi b { loc with fast_charging := true } =
      adjust_roi b { loc with fast_charging := false } + 5 := by
  rw [adjust_roi_eq, adjust_roi_eq, spec_adjustment_fast loc]
  have h2 := spec_adjustment_bounds { loc with fast_charging := false }
  rw [max_eq_left (by linarith [h2.1]), max_eq_left (by linarith [h2.1])]
  ring

/-- C8: holding everything else fixed, raising the EV-adoption feature
from a value at most 20 to a value above 20 raises the fallback base
ROI by exactly 4 (the cap at 35 never binds, since the increments sum
to at most 26), and enabling the fast-charging flag raises the
adjusted fallback ROI by exactly 5 (the floor at 5 never strictly
binds above a base of 12). -/
theorem C8_monotonicity (f : Features) (loc : LocationData) (x y : ℚ)
    (hx : x ≤ 20) (hy : 20 < y) :
    calculate_fallback_roi { f with ev_adoption_rate := y } =
      calculate_fallback_roi { f with ev_adoption_rate := x } + 4 ∧
    adjust_roi (calculate_fallback_roi f) { loc with fast_charging := true } =
      adjust_roi (calculate_fallback_roi f) { loc with fast_charging := false } + 5 := by
  constructor
  · rw [calculate_fallback_roi_eq, calculate_fallback_roi_eq,
      spec_fallback_base_update f x y hx hy]
    have h1 := spec_fallback_base_bounds { f with ev_adoption_rate := x }
    rw [min_eq_left (by linarith [h1.2]), min_eq_left (by linarith [h1.2])]
  · exact adjust_roi_fast_delta _ (calculate_fallback_roi_ge_twelve f) loc

/-- C8 witness: a concrete instantiation at EV-adoption 10 versus 25
on the empty record. -/
theorem C8_monotonicity_witness :
    ((10 : ℚ) ≤ 20 ∧ (20 : ℚ) < 25) ∧
    (calculate_fallback_roi
        { prepare_ev_features empty_location with ev_adoption_rate := 25 } =
      calculate_fallback_roi
        { prepare_ev_features empty_location with ev_adoption_rate := 10 } + 4 ∧
     adjust_roi (calculate_fallback_roi (prepare_ev_features empty_location))
        { empty_location with fast_charging := true } =
      adjust_roi (calculate_fallback_roi (prepare_ev_features empty_location))
        { empty_location with fast_charging := false } + 5) :=
  ⟨⟨by norm_num, by norm_num⟩,
   C8_monotonicity (prepare_ev_features empty_location) empty_location 10 25
     (by norm_num) (by norm_num)⟩

/-- A complete first batch record. -/
def loc_first : LocationData :=
  { daily_vehicles := some 15000
    population_density := some 8500
    avg_income := some 85000 }

/-- The second batch record, missing the mandatory avg_income key. -/
def loc_second_missing_income : LocationData :=
  { daily_vehicles := some 12000
    population_density := some 5000
    avg_income := none }

/-- A complete third batch record. -/
def loc_third : LocationData :=
  { daily_vehicles := some 8000
    population_density := some 4000
    avg_income := some 60000 }

/-- The three-record batch whose second item misses avg_income. -/
def batch_three : List LocationInput :=
  [LocationInput.valid loc_first,
   LocationInput.valid loc_second_missing_income,
   LocationInput.valid loc_third]

/-- A placeholder entry for out-of-range list reads. -/
def dummy_entry : BatchEntry :=
  let e : String := ""
  { payload := PredictResult.error e, location_index := 0, location_name := e }

/-- C6 counterexample: on a batch of three records whose second misses
the mandatory avg_income field, `batch_analyze` reports three
successful analyses and the second result carries no error — the
mandatory-field validation runs only in the single-prediction route,
never in the batch loop, and `prepare_ev_features` substitutes the
default 0 for the missing income.  The claim (successful_analysis 2
and an error entry at index 1) is therefore false on this input. -/
theorem C6_counterexample :
    (batch_analyze fallback_models batch_three).total_locations = 3 ∧
    (batch_analyze fallback_models batch_three).successful_analysis = 3 ∧
    entryHasError
      ((batch_analyze fallback_models batch_three).results.getD 1 dummy_entry)
      = false := by
  refine ⟨rfl, rfl, rfl⟩

/-- C6 amended: for every registry and every batch of three well-formed
records whose second misses the mandatory avg_income key, the batch
result reports total_locations 3, successful_analysis 3, and the
second result entry carries no error: batch items are not validated
for mandatory fields (that validation belongs to the single-prediction
route), the absent field is replaced by its default, and the analysis
of every item succeeds. -/
theorem C6_amended_no_batch_validation (models : Models)
    (a b c : LocationData) (h : b.avg_income = none) :
    (batch_analyze models
        [LocationInput.valid a, LocationInput.valid b,
         LocationInput.valid c]).total_locations = 3 ∧
    (batch_analyze models
        [LocationInput.valid a, LocationInput.valid b,
         LocationInput.valid c]).successful_analysis = 3 ∧
    entryHasError
      ((batch_analyze models
          [LocationInput.valid a, LocationInput.valid b,
           LocationInput.valid c]).results.getD 1 dummy_entry) = false := by
  refine ⟨rfl, rfl, rfl⟩

/-- C6 amended witness: the concrete three-record batch instantiates
the amended statement. -/
theorem C6_amended_no_batch_validation_witness :
    loc_second_missing_income.avg_income = none ∧
    ((batch_analyze fallback_models
        [LocationInput.valid loc_first,
         LocationInput.valid loc_second_missing_income,
         LocationInput.valid loc_third]).total_locations = 3 ∧
     (batch_analyze fallback_models
        [LocationInput.valid loc_first,
         LocationInput.valid loc_second_missing_income,
         LocationInput.valid loc_third]).successful_analysis = 3 ∧
     entryHasError
       ((batch_analyze fallback_models
           [LocationInput.valid loc_first,
            LocationInput.valid loc_second_missing_income,
            LocationInput.valid loc_third]).results.getD 1 dummy_entry) = false) :=
  ⟨rfl, C6_amended_no_batch_validation fallback_models
    loc_first loc_second_missing_income loc_third rfl⟩
